import Mathlib

/-!
Shallow embedding of `src/app.py` (AWS Lambda file-gateway handler).

The handler receives an API-Gateway-style event, dispatches on
`httpMethod` and `path`, and either prepares a pre-signed upload URL
(`POST /files`), redirects to a pre-signed download URL
(`GET /files/{objectKey}`), or answers 404.

External collaborators (Python's `json.loads` and the boto3 S3 client)
are modelled as an `Env` record of functions; the stdlib serializer
`json.dumps` and `urllib.parse.unquote` are implemented concretely so
that response bodies and decoded keys can be computed.  Python
exceptions are modelled by `Except Exn`; each handler additionally
returns the list of S3-client calls it performed, so that "no store
call is made" is statable.
-/

namespace FileGateway

/-- JSON values as produced by `json.loads` / consumed by `json.dumps`.
Numbers are restricted to integers (the only numbers this program ever
serializes are the literals 900 and 3600).  Object fields keep insertion
order, as Python dicts do. -/
inductive Json where
  | null
  | bool (b : Bool)
  | num (n : Int)
  | str (s : String)
  | arr (xs : List Json)
  | obj (fields : List (String × Json))
deriving Repr, BEq

/-- Hexadecimal digit character (lowercase), as used by Python's
`\uXXXX` escapes. -/
def hexDigitChar (n : Nat) : Char :=
  if n < 10 then Char.ofNat (48 + n) else Char.ofNat (97 + n - 10)

/-- Four-digit lowercase hex rendering of a code unit. -/
def hex4 (n : Nat) : String :=
  String.mk [hexDigitChar (n / 4096 % 16), hexDigitChar (n / 256 % 16),
             hexDigitChar (n / 16 % 16), hexDigitChar (n % 16)]

/-- Escape one character the way Python's `json.dumps` (default
`ensure_ascii=True`) does. -/
def jsonEscapeChar (c : Char) : String :=
  if c = '"' then "\\\""
  else if c = '\\' then "\\\\"
  else if c = '\n' then "\\n"
  else if c = '\r' then "\\r"
  else if c = '\t' then "\\t"
  else if c.toNat = 8 then "\\b"
  else if c.toNat = 12 then "\\f"
  else if c.toNat < 32 ∨ c.toNat > 126 then
    if c.toNat ≤ 65535 then "\\u" ++ hex4 c.toNat
    else
      let v := c.toNat - 65536
      "\\u" ++ hex4 (55296 + v / 1024) ++ "\\u" ++ hex4 (56320 + v % 1024)
  else String.singleton c

/-- Escape a string the way Python's `json.dumps` does. -/
def jsonEscape (s : String) : String := String.join (s.data.map jsonEscapeChar)

mutual

/-- `json.dumps` with Python's default separators `", "` and `": "`. -/
def Json.dumps : Json → String
  | .null => "null"
  | .bool true => "true"
  | .bool false => "false"
  | .num n => toString n
  | .str s => "\"" ++ jsonEscape s ++ "\""
  | .arr xs => "[" ++ Json.dumpsItems xs ++ "]"
  | .obj fs => "\x7b" ++ Json.dumpsFields fs ++ "\x7d"

/-- Array elements, `", "`-separated. -/
def Json.dumpsItems : List Json → String
  | [] => ""
  | [x] => Json.dumps x
  | x :: y :: rest => Json.dumps x ++ ", " ++ Json.dumpsItems (y :: rest)

/-- Object fields, `", "`-separated, `": "` after each key. -/
def Json.dumpsFields : List (String × Json) → String
  | [] => ""
  | [(k, v)] => "\"" ++ jsonEscape k ++ "\": " ++ Json.dumps v
  | (k, v) :: f :: rest =>
      "\"" ++ jsonEscape k ++ "\": " ++ Json.dumps v ++ ", " ++ Json.dumpsFields (f :: rest)

end

/-- Python truthiness (`if not x`) on JSON values: `None`, `False`, `0`,
`""`, `[]` and `\x7b\x7d` are falsy, everything else truthy. -/
def Json.truthy : Json → Bool
  | .null => false
  | .bool b => b
  | .num n => n != 0
  | .str s => !s.isEmpty
  | .arr xs => !xs.isEmpty
  | .obj fs => !fs.isEmpty

/-- Value of a hexadecimal digit character, if it is one. -/
def hexDigitVal (c : Char) : Option Nat :=
  if '0' ≤ c ∧ c ≤ '9' then some (c.toNat - 48)
  else if 'a' ≤ c ∧ c ≤ 'f' then some (c.toNat - 97 + 10)
  else if 'A' ≤ c ∧ c ≤ 'F' then some (c.toNat - 65 + 10)
  else none

/-- `urllib.parse.unquote`: percent-escapes `%XX` (valid hex) are
decoded to the character with that code; invalid escapes are left
as-is.  (Python additionally UTF-8-decodes runs of decoded bytes; for
the ASCII escapes this program's spec exercises the two agree.) -/
def unquoteChars : Nat → List Char → List Char
  | _, [] => []
  | 0, l => l
  | fuel + 1, c :: rest =>
    if c = '%' then
      match rest with
      | a :: b :: rest2 =>
        match hexDigitVal a, hexDigitVal b with
        | some ha, some hb => Char.ofNat (16 * ha + hb) :: unquoteChars fuel rest2
        | _, _ => '%' :: unquoteChars fuel rest
      | _ => '%' :: unquoteChars fuel rest
    else c :: unquoteChars fuel rest

/-- `urllib.parse.unquote` on strings.  The fuel argument of
`unquoteChars` is the list length; every step consumes at least one
character per unit of fuel, so the fuel never runs out. -/
def unquote (s : String) : String := String.mk (unquoteChars s.data.length s.data)

/-- Python's `str.startswith`: the first string's character sequence
begins with the second's. -/
def startswith (s pre : String) : Bool := pre.data.isPrefixOf s.data

/-- A Python exception as the handler can observe it: either a boto3
`ClientError` (carrying `e.response['Error']['Code']` and its `str`),
or any other exception (carrying its `str`). -/
inductive Exn where
  | clientError (code : String) (msg : String)
  | other (msg : String)
deriving Repr, DecidableEq

/-- `str(e)` of an exception. -/
def Exn.str : Exn → String
  | .clientError _ msg => msg
  | .other msg => msg

/-- The boto3 S3 client, abstracted: each operation either returns a
value or raises an exception.  `generate_presigned_url` is split per
operation name; the bucket and `ExpiresIn` arguments are fixed by the
source, so they are recorded in the call log instead. -/
structure S3Client where
  /-- `generate_presigned_url('put_object', Params=..Key, ContentType.., ExpiresIn=900)`. -/
  generate_presigned_url_put : Json → Json → Except Exn String
  /-- `head_object(Bucket=.., Key=..)`. -/
  head_object : String → Except Exn Unit
  /-- `generate_presigned_url('get_object', Params=..Key.., ExpiresIn=3600)`. -/
  generate_presigned_url_get : String → Except Exn String

/-- External collaborators of the handler: `json.loads` (where
`Except.error ()` is a `json.JSONDecodeError`), the S3 client, and the
`BUCKET_NAME` configuration (`os.environ.get`, hence optional). -/
structure Env where
  json_loads : String → Except Unit Json
  s3_client : S3Client
  BUCKET_NAME : Option String

/-- The Lambda event: `httpMethod`, `path`, `pathParameters`, `body`,
each possibly absent (`event.get`). -/
structure Event where
  httpMethod : Option String
  path : Option String
  pathParameters : Option (List (String × String))
  body : Option String

/-- The HTTP-shaped response dict the handler returns.  `headers`
keeps insertion order; `body` is the `json.dumps` string. -/
structure Response where
  statusCode : Nat
  headers : List (String × String)
  body : String
deriving Repr, DecidableEq

/-- One S3-client call, with the arguments the source passes. -/
inductive StoreCall where
  | presignUpload (bucket : Option String) (key contentType : Json) (expiresIn : Nat)
  | headObject (bucket : Option String) (key : String)
  | presignDownload (bucket : Option String) (key : String) (expiresIn : Nat)
deriving Repr, BEq

/-- The `Content-Type: application/json` header every branch sets. -/
def ctJson : List (String × String) := [("Content-Type", "application/json")]

/-- `json.dumps(\x7b'error': msg\x7d)`. -/
def errorBody (msg : String) : String := Json.dumps (.obj [("error", .str msg)])

/-- `handle_upload_preparation` (POST /files): parse the body, require
a truthy `filename`, default `contentType`, ask for a pre-signed PUT
URL and answer 200 — or the 400/500 error responses of the source.
Returns the (possibly raised) outcome plus the list of S3 calls
made. -/
def handle_upload_preparation (env : Env) (event : Event) :
    Except Exn Response × List StoreCall :=
  match env.json_loads (event.body.getD "\x7b\x7d") with
  | .error _ =>
    (.ok ⟨400, ctJson, errorBody "Invalid JSON in request body"⟩, [])
  | .ok bodyJson =>
    match bodyJson with
    | .obj fields =>
      let filename := (fields.lookup "filename").getD .null
      if !filename.truthy then
        (.ok ⟨400, ctJson, errorBody "filename is required"⟩, [])
      else
        let content_type := (fields.lookup "contentType").getD (.str "application/octet-stream")
        let object_key := filename
        let call := StoreCall.presignUpload env.BUCKET_NAME object_key content_type 900
        match env.s3_client.generate_presigned_url_put object_key content_type with
        | .error (.clientError _ _) =>
          (.ok ⟨500, ctJson, errorBody "Failed to generate upload URL"⟩, [call])
        | .error e => (.error e, [call])
        | .ok upload_url =>
          (.ok ⟨200, ctJson, Json.dumps (.obj
            [("objectKey", object_key),
             ("uploadUrl", .str upload_url),
             ("method", .str "PUT"),
             ("contentType", content_type),
             ("expiresIn", .num 900)])⟩, [call])
    | _ =>
      -- `body.get('filename')` on a non-dict raises AttributeError,
      -- which no local except clause catches.
      (.error (.other "object has no attribute get"), [])

/-- `handle_download` (GET /files/\x7bobjectKey\x7d): require a truthy
`objectKey` path parameter, URL-decode it, probe existence
(`head_object`, 404 on a ClientError with code '404', re-raise
otherwise), ask for a pre-signed GET URL and answer 307 — or the
400/500 error responses of the source. -/
def handle_download (env : Env) (event : Event) :
    Except Exn Response × List StoreCall :=
  let path_parameters := event.pathParameters.getD []
  let object_key0 := path_parameters.lookup "objectKey"
  match object_key0 with
  | none => (.ok ⟨400, ctJson, errorBody "objectKey is required"⟩, [])
  | some k =>
    if k.isEmpty then (.ok ⟨400, ctJson, errorBody "objectKey is required"⟩, [])
    else
      let object_key := unquote k
      let headCall := StoreCall.headObject env.BUCKET_NAME object_key
      match env.s3_client.head_object object_key with
      | .error (.clientError code msg) =>
        if code == "404" then
          (.ok ⟨404, ctJson, errorBody "File not found"⟩, [headCall])
        else
          (.error (.clientError code msg), [headCall])
      | .error (.other msg) => (.error (.other msg), [headCall])
      | .ok _ =>
        let getCall := StoreCall.presignDownload env.BUCKET_NAME object_key 3600
        match env.s3_client.generate_presigned_url_get object_key with
        | .error (.clientError _ _) =>
          (.ok ⟨500, ctJson, errorBody "Failed to generate download URL"⟩,
           [headCall, getCall])
        | .error e => (.error e, [headCall, getCall])
        | .ok download_url =>
          (.ok ⟨307, [("Location", download_url), ("Content-Type", "application/json")],
            Json.dumps (.obj
              [("message", .str "Redirecting to download URL"),
               ("expiresIn", .num 3600)])⟩, [headCall, getCall])

/-- The body of `lambda_handler`'s try block: dispatch on
method + path. -/
def dispatch (env : Env) (event : Event) : Except Exn Response × List StoreCall :=
  let http_method := event.httpMethod
  let path := event.path.getD ""
  if http_method == some "POST" && path == "/files" then
    handle_upload_preparation env event
  else if http_method == some "GET" && startswith path "/files/" then
    handle_download env event
  else
    (.ok ⟨404, ctJson, errorBody "Not found"⟩, [])

/-- `lambda_handler`: dispatch inside a try; any exception is caught at
this outermost boundary and converted to 500 with
`\x7b"error": str(e)\x7d`. -/
def lambda_handler (env : Env) (event : Event) : Response × List StoreCall :=
  match dispatch env event with
  | (.ok r, log) => (r, log)
  | (.error e, log) => (⟨500, ctJson, errorBody e.str⟩, log)

/-- The source's not-found test on a caught exception: it is a
`ClientError` and `e.response['Error']['Code'] == '404'`. -/
def Exn.is404 : Exn → Bool
  | .clientError code _ => code == "404"
  | .other _ => false

/-!
Concrete fixtures used by the witness theorems below: S3 clients that
always succeed / report 404 / fail with a non-ClientError on the
existence probe, a `json.loads` fragment covering the bodies the
witnesses send, and the events themselves.
-/

/-- An S3 client whose calls all succeed. -/
def s3ok : S3Client :=
  ⟨fun _ _ => .ok "https://upload", fun _ => .ok (), fun _ => .ok "https://download"⟩

/-- An S3 client whose existence probe raises `ClientError` with code 404. -/
def s3head404 : S3Client :=
  ⟨fun _ _ => .ok "https://upload",
   fun _ => .error (.clientError "404" "An error occurred (404) when calling the HeadObject operation: Not Found"),
   fun _ => .ok "https://download"⟩

/-- An S3 client whose existence probe raises a non-ClientError fault. -/
def s3headBoom : S3Client :=
  ⟨fun _ _ => .ok "https://upload",
   fun _ => .error (.other "connection reset"),
   fun _ => .ok "https://download"⟩

/-- `json.loads` restricted to the body strings the witnesses use. -/
def loads0 : String → Except Unit Json := fun s =>
  if s == "\x7b\x7d" then .ok (.obj [])
  else if s == "\x7b\"filename\": \"report.pdf\", \"contentType\": \"application/pdf\"\x7d" then
    .ok (.obj [("filename", .str "report.pdf"), ("contentType", .str "application/pdf")])
  else .error ()

/-- Environment with an all-succeeding store. -/
def env0 : Env := ⟨loads0, s3ok, some "bucket"⟩

/-- Environment whose store reports 404 on the existence probe. -/
def env404 : Env := ⟨loads0, s3head404, some "bucket"⟩

/-- Environment whose store raises a non-ClientError on the existence probe. -/
def envBoom : Env := ⟨loads0, s3headBoom, some "bucket"⟩

/-- POST /files with a well-formed body. -/
def evUpOk : Event :=
  ⟨some "POST", some "/files", none,
   some "\x7b\"filename\": \"report.pdf\", \"contentType\": \"application/pdf\"\x7d"⟩

/-- POST /files with an unparsable body. -/
def evUpBad : Event := ⟨some "POST", some "/files", none, some "not json"⟩

/-- POST /files with an empty JSON object body. -/
def evUpEmpty : Event := ⟨some "POST", some "/files", none, some "\x7b\x7d"⟩

/-- POST /files with no body field at all. -/
def evUpNoBody : Event := ⟨some "POST", some "/files", none, none⟩

/-- GET /files/a.txt. -/
def evDl : Event := ⟨some "GET", some "/files/a.txt", some [("objectKey", "a.txt")], none⟩

/-- GET /files/a%20b.txt (percent-encoded key). -/
def evDlEnc : Event :=
  ⟨some "GET", some "/files/a%20b.txt", some [("objectKey", "a%20b.txt")], none⟩

/-- A request matching neither route. -/
def evOther : Event := ⟨some "DELETE", some "/x", none, none⟩

/-- C1: for every input event the handler returns a structured
Response, and any fault the dispatched operation lets escape is
converted, at the outermost boundary, to a 500 response whose body is
`\x7b"error": <fault message>\x7d`. -/
theorem c1_safety_net (env : Env) (event : Event) :
    (∃ r log, lambda_handler env event = (r, log)) ∧
    (∀ e log, dispatch env event = (.error e, log) →
      lambda_handler env event = (⟨500, ctJson, errorBody (Exn.str e)⟩, log)) := by
  refine ⟨⟨(lambda_handler env event).1, (lambda_handler env event).2, rfl⟩, ?_⟩
  intro e log h
  simp [lambda_handler, h]

/-- Witness for C1: a store fault during the existence probe surfaces
as a 500 with the raw fault description. -/
theorem c1_safety_net_witness :
    lambda_handler envBoom evDl =
      (⟨500, ctJson, errorBody "connection reset"⟩,
       [.headObject (some "bucket") "a.txt"]) :=
  (c1_safety_net envBoom evDl).2 (.other "connection reset")
    [.headObject (some "bucket") "a.txt"] rfl

/-- C4: dispatch is decided only by method and path — POST with path
exactly `/files` goes to Upload Preparation, GET with a path under
`/files/` goes to Download, and anything else yields a 404
`\x7b"error": "Not found"\x7d` response with no store call. -/
theorem c4_dispatch_rule (env : Env) (event : Event) :
    (event.httpMethod = some "POST" → event.path.getD "" = "/files" →
      dispatch env event = handle_upload_preparation env event) ∧
    (event.httpMethod = some "GET" → startswith (event.path.getD "") "/files/" = true →
      dispatch env event = handle_download env event) ∧
    (¬(event.httpMethod = some "POST" ∧ event.path.getD "" = "/files") →
     ¬(event.httpMethod = some "GET" ∧ startswith (event.path.getD "") "/files/" = true) →
      lambda_handler env event = (⟨404, ctJson, errorBody "Not found"⟩, [])) := by
  refine ⟨?_, ?_, ?_⟩
  · intro hm hp
    simp [dispatch, hm, hp]
  · intro hm hp
    simp [dispatch, hm, hp]
  · intro h1 h2
    have b1 : (event.httpMethod == some "POST" && (event.path.getD "" == "/files")) = false := by
      rw [Bool.eq_false_iff]
      intro hb
      exact h1 (by simpa [Bool.and_eq_true, beq_iff_eq] using hb)
    have b2 : (event.httpMethod == some "GET" && startswith (event.path.getD "") "/files/") = false := by
      rw [Bool.eq_false_iff]
      intro hb
      exact h2 (by simpa [Bool.and_eq_true, beq_iff_eq] using hb)
    simp [lambda_handler, dispatch, b1, b2]

/-- Witness for C4: a DELETE on an unrelated path answers 404 Not found. -/
theorem c4_dispatch_rule_witness :
    lambda_handler env0 evOther = (⟨404, ctJson, errorBody "Not found"⟩, []) :=
  (c4_dispatch_rule env0 evOther).2.2 (by simp [evOther]) (by simp [evOther])

/-- C6: a POST /files whose body string is present but unparsable
answers 400 `\x7b"error": "Invalid JSON in request body"\x7d`, and no
store-client call is made. -/
theorem c6_invalid_json (env : Env) (event : Event) (b : String)
    (hm : event.httpMethod = some "POST")
    (hp : event.path.getD "" = "/files")
    (hb : event.body = some b)
    (hparse : env.json_loads b = .error ()) :
    lambda_handler env event =
      (⟨400, ctJson, errorBody "Invalid JSON in request body"⟩, []) := by
  simp [lambda_handler, dispatch, handle_upload_preparation, hm, hp, hb, hparse]

/-- Witness for C6 at a concrete unparsable body. -/
theorem c6_invalid_json_witness :
    lambda_handler env0 evUpBad =
      (⟨400, ctJson, errorBody "Invalid JSON in request body"⟩, []) :=
  c6_invalid_json env0 evUpBad "not json" rfl rfl rfl rfl

/-- C7: a POST /files whose body parses as a JSON object whose
`filename` field is absent or the empty string answers 400
`\x7b"error": "filename is required"\x7d`, and no store-client call is
made. -/
theorem c7_filename_required (env : Env) (event : Event) (fields : List (String × Json))
    (hm : event.httpMethod = some "POST")
    (hp : event.path.getD "" = "/files")
    (hparse : env.json_loads (event.body.getD "\x7b\x7d") = .ok (.obj fields))
    (hfn : fields.lookup "filename" = none ∨ fields.lookup "filename" = some (.str "")) :
    lambda_handler env event =
      (⟨400, ctJson, errorBody "filename is required"⟩, []) := by
  rcases hfn with hfn | hfn <;>
    simp [lambda_handler, dispatch, handle_upload_preparation, hm, hp, hparse, hfn,
      Json.truthy, String.isEmpty_iff]

/-- Witness for C7: an empty JSON object body has no filename. -/
theorem c7_filename_required_witness :
    lambda_handler env0 evUpEmpty =
      (⟨400, ctJson, errorBody "filename is required"⟩, []) :=
  c7_filename_required env0 evUpEmpty [] rfl rfl rfl (Or.inl rfl)

/-- C10: a POST /files with no body field at all is read as the empty
JSON object (`json.loads` of the default `'\x7b\x7d'`), so it is not a
parse failure and answers 400 `\x7b"error": "filename is required"\x7d`. -/
theorem c10_absent_body (env : Env) (event : Event)
    (hm : event.httpMethod = some "POST")
    (hp : event.path.getD "" = "/files")
    (hb : event.body = none)
    (hparse : env.json_loads "\x7b\x7d" = .ok (.obj [])) :
    lambda_handler env event =
      (⟨400, ctJson, errorBody "filename is required"⟩, []) := by
  simp [lambda_handler, dispatch, handle_upload_preparation, hm, hp, hb, hparse, Json.truthy]

/-- Witness for C10 at a concrete body-less event. -/
theorem c10_absent_body_witness :
    lambda_handler env0 evUpNoBody =
      (⟨400, ctJson, errorBody "filename is required"⟩, []) :=
  c10_absent_body env0 evUpNoBody rfl rfl rfl rfl

/-- C2: a POST /files whose body parses to a JSON object with a
non-empty string `filename` (contentType defaulting to
application/octet-stream), when the presign-upload call succeeds,
answers 200 with `objectKey` = the filename verbatim, the generated
URL, method PUT, the contentType and `expiresIn` 900; the presign
request is recorded with a 900-second validity window. -/
theorem c2_upload_success (env : Env) (event : Event) (fields : List (String × Json))
    (fn url : String)
    (hm : event.httpMethod = some "POST")
    (hp : event.path.getD "" = "/files")
    (hparse : env.json_loads (event.body.getD "\x7b\x7d") = .ok (.obj fields))
    (hfn : fields.lookup "filename" = some (.str fn))
    (hne : fn ≠ "")
    (hurl : env.s3_client.generate_presigned_url_put (.str fn)
      ((fields.lookup "contentType").getD (.str "application/octet-stream")) = .ok url) :
    lambda_handler env event =
      (⟨200, ctJson, Json.dumps (.obj
        [("objectKey", .str fn),
         ("uploadUrl", .str url),
         ("method", .str "PUT"),
         ("contentType", (fields.lookup "contentType").getD (.str "application/octet-stream")),
         ("expiresIn", .num 900)])⟩,
       [.presignUpload env.BUCKET_NAME (.str fn)
         ((fields.lookup "contentType").getD (.str "application/octet-stream")) 900]) := by
  have hfe : fn.isEmpty = false := by
    cases h : fn.isEmpty
    · rfl
    · exact absurd ((String.isEmpty_iff fn).mp h) hne
  simp [lambda_handler, dispatch, handle_upload_preparation, hm, hp, hparse, hfn, hurl,
    Json.truthy, hfe]

/-- Witness for C2: the spec's concrete scenario
(`report.pdf` / `application/pdf`). -/
theorem c2_upload_success_witness :
    lambda_handler env0 evUpOk =
      (⟨200, ctJson, Json.dumps (.obj
        [("objectKey", .str "report.pdf"),
         ("uploadUrl", .str "https://upload"),
         ("method", .str "PUT"),
         ("contentType", .str "application/pdf"),
         ("expiresIn", .num 900)])⟩,
       [.presignUpload (some "bucket") (.str "report.pdf") (.str "application/pdf") 900]) :=
  c2_upload_success env0 evUpOk
    [("filename", .str "report.pdf"), ("contentType", .str "application/pdf")]
    "report.pdf" "https://upload" rfl rfl rfl rfl (by decide) rfl

/-- C3: a GET /files/\x7bobjectKey\x7d with a non-empty key, when the
existence probe and the presign-download call both succeed, answers
307 with `Location` = the generated (non-empty) URL and body
`\x7b"message": "Redirecting to download URL", "expiresIn": 3600\x7d`;
the presign request is recorded with a 3600-second validity window. -/
theorem c3_download_success (env : Env) (event : Event) (k url : String)
    (hm : event.httpMethod = some "GET")
    (hp : startswith (event.path.getD "") "/files/" = true)
    (hk : (event.pathParameters.getD []).lookup "objectKey" = some k)
    (hne : k ≠ "")
    (hhead : env.s3_client.head_object (unquote k) = .ok ())
    (hurl : env.s3_client.generate_presigned_url_get (unquote k) = .ok url)
    (hnu : url ≠ "") :
    lambda_handler env event =
      (⟨307, [("Location", url), ("Content-Type", "application/json")],
        Json.dumps (.obj [("message", .str "Redirecting to download URL"),
                          ("expiresIn", .num 3600)])⟩,
       [.headObject env.BUCKET_NAME (unquote k),
        .presignDownload env.BUCKET_NAME (unquote k) 3600]) ∧ url ≠ "" := by
  have hfe : k.isEmpty = false := by
    cases h : k.isEmpty
    · rfl
    · exact absurd ((String.isEmpty_iff k).mp h) hne
  refine ⟨?_, hnu⟩
  simp [lambda_handler, dispatch, handle_download, hm, hp, hk, hfe, hhead, hurl]

/-- Witness for C3 at a concrete existing key. -/
theorem c3_download_success_witness :
    lambda_handler env0 evDl =
      (⟨307, [("Location", "https://download"), ("Content-Type", "application/json")],
        Json.dumps (.obj [("message", .str "Redirecting to download URL"),
                          ("expiresIn", .num 3600)])⟩,
       [.headObject (some "bucket") "a.txt",
        .presignDownload (some "bucket") "a.txt" 3600]) ∧ ("https://download" : String) ≠ "" :=
  c3_download_success env0 evDl "a.txt" "https://download"
    rfl rfl rfl (by decide) rfl rfl (by decide)

/-- C5: a GET /files/\x7bobjectKey\x7d with a non-empty key whose
existence probe raises: a ClientError with code 404 yields a 404
`\x7b"error": "File not found"\x7d`; any other fault leaves the
Download operation unhandled (its result is that fault), and the
top-level safety net turns it into a 500 with the raw fault
description. -/
theorem c5_download_head_failure (env : Env) (event : Event) (k : String) (e : Exn)
    (hm : event.httpMethod = some "GET")
    (hp : startswith (event.path.getD "") "/files/" = true)
    (hk : (event.pathParameters.getD []).lookup "objectKey" = some k)
    (hne : k ≠ "")
    (hhead : env.s3_client.head_object (unquote k) = .error e) :
    (e.is404 = true →
      lambda_handler env event =
        (⟨404, ctJson, errorBody "File not found"⟩,
         [.headObject env.BUCKET_NAME (unquote k)])) ∧
    (e.is404 = false →
      (handle_download env event).1 = .error e ∧
      lambda_handler env event =
        (⟨500, ctJson, errorBody (Exn.str e)⟩,
         [.headObject env.BUCKET_NAME (unquote k)])) := by
  have hfe : k.isEmpty = false := by
    cases h : k.isEmpty
    · rfl
    · exact absurd ((String.isEmpty_iff k).mp h) hne
  constructor
  · intro h404
    cases e with
    | clientError code msg =>
      have hc : (code == "404") = true := by simpa [Exn.is404] using h404
      simp [lambda_handler, dispatch, handle_download, hm, hp, hk, hfe, hhead, hc]
    | other msg => simp [Exn.is404] at h404
  · intro h404
    cases e with
    | clientError code msg =>
      have hc : (code == "404") = false := by simpa [Exn.is404] using h404
      constructor <;>
        simp [lambda_handler, dispatch, handle_download, hm, hp, hk, hfe, hhead, hc, Exn.str]
    | other msg =>
      constructor <;>
        simp [lambda_handler, dispatch, handle_download, hm, hp, hk, hfe, hhead, Exn.str]

/-- Witness for C5: a 404 ClientError yields File not found; a
non-ClientError fault surfaces as a 500 with its description. -/
theorem c5_download_head_failure_witness :
    lambda_handler env404 evDl =
      (⟨404, ctJson, errorBody "File not found"⟩,
       [.headObject (some "bucket") "a.txt"]) ∧
    lambda_handler envBoom evDlEnc =
      (⟨500, ctJson, errorBody "connection reset"⟩,
       [.headObject (some "bucket") "a b.txt"]) :=
  ⟨(c5_download_head_failure env404 evDl "a.txt"
      (.clientError "404" "An error occurred (404) when calling the HeadObject operation: Not Found")
      rfl rfl rfl (by decide) rfl).1 rfl,
   ((c5_download_head_failure envBoom evDlEnc "a%20b.txt"
      (.other "connection reset")
      rfl rfl rfl (by decide) rfl).2 rfl).2⟩

/-- C8: a GET /files/\x7bobjectKey\x7d with a non-empty key
percent-decodes the key before use, and every store call of the
request — the existence probe, and the presign-download when it
happens — uses that same decoded key; e.g. `a%20b.txt` decodes to
`a b.txt`. -/
theorem c8_key_decoded (env : Env) (event : Event) (k : String)
    (hm : event.httpMethod = some "GET")
    (hp : startswith (event.path.getD "") "/files/" = true)
    (hk : (event.pathParameters.getD []).lookup "objectKey" = some k)
    (hne : k ≠ "") :
    ((lambda_handler env event).2 = [.headObject env.BUCKET_NAME (unquote k)] ∨
     (lambda_handler env event).2 =
       [.headObject env.BUCKET_NAME (unquote k),
        .presignDownload env.BUCKET_NAME (unquote k) 3600]) ∧
    unquote "a%20b.txt" = "a b.txt" := by
  have hfe : k.isEmpty = false := by
    cases h : k.isEmpty
    · rfl
    · exact absurd ((String.isEmpty_iff k).mp h) hne
  refine ⟨?_, rfl⟩
  cases hhead : env.s3_client.head_object (unquote k) with
  | ok u =>
    cases u
    right
    cases hget : env.s3_client.generate_presigned_url_get (unquote k) with
    | ok url =>
      simp [lambda_handler, dispatch, handle_download, hm, hp, hk, hfe, hhead, hget]
    | error e =>
      cases e <;>
        simp [lambda_handler, dispatch, handle_download, hm, hp, hk, hfe, hhead, hget]
  | error e =>
    left
    cases e with
    | clientError code msg =>
      cases hc : (code == "404") <;>
        simp [lambda_handler, dispatch, handle_download, hm, hp, hk, hfe, hhead, hc]
    | other msg =>
      simp [lambda_handler, dispatch, handle_download, hm, hp, hk, hfe, hhead]

/-- Witness for C8 at the spec's percent-encoded example key. -/
theorem c8_key_decoded_witness :
    ((lambda_handler env0 evDlEnc).2 = [.headObject (some "bucket") (unquote "a%20b.txt")] ∨
     (lambda_handler env0 evDlEnc).2 =
       [.headObject (some "bucket") (unquote "a%20b.txt"),
        .presignDownload (some "bucket") (unquote "a%20b.txt") 3600]) ∧
    unquote "a%20b.txt" = "a b.txt" :=
  c8_key_decoded env0 evDlEnc "a%20b.txt" rfl rfl rfl (by decide)

/-- The C9 response invariant: the JSON content-type header is present,
every response with an error status (≥ 400) has a body of the exact
form `\x7b"error": <string>\x7d`, and a 307 carries a `Location`
header. -/
def RespOK (r : Response) : Prop :=
  ("Content-Type", "application/json") ∈ r.headers ∧
  (400 ≤ r.statusCode → ∃ msg, r.body = errorBody msg) ∧
  (r.statusCode = 307 → ∃ u, ("Location", u) ∈ r.headers)

/-- `RespOK` lifted to a possibly-raised result: raised faults carry no
response. -/
def ExceptOK : Except Exn Response → Prop
  | .ok r => RespOK r
  | .error _ => True

/-- Every error response the source builds satisfies the invariant. -/
theorem respOK_err (code : Nat) (msg : String) (h : code ≠ 307) :
    RespOK ⟨code, ctJson, errorBody msg⟩ := by
  refine ⟨by simp [ctJson], fun _ => ⟨msg, rfl⟩, fun hc => absurd hc h⟩

/-- The 200 upload response satisfies the invariant. -/
theorem respOK_200 (body : String) : RespOK ⟨200, ctJson, body⟩ := by
  refine ⟨by simp [ctJson], ?_, ?_⟩ <;> intro hc <;> simp [RespOK] at hc

/-- The 307 redirect response satisfies the invariant. -/
theorem respOK_307 (url body : String) :
    RespOK ⟨307, [("Location", url), ("Content-Type", "application/json")], body⟩ := by
  refine ⟨by simp, ?_, fun _ => ⟨url, by simp⟩⟩
  intro hc
  simp [RespOK] at hc

/-- Every outcome of Upload Preparation satisfies the invariant. -/
theorem upload_exceptOK (env : Env) (event : Event) :
    ExceptOK (handle_upload_preparation env event).1 := by
  unfold handle_upload_preparation
  dsimp only
  repeat' split
  all_goals first
    | trivial
    | exact respOK_err 400 "Invalid JSON in request body" (by decide)
    | exact respOK_err 400 "filename is required" (by decide)
    | exact respOK_err 500 "Failed to generate upload URL" (by decide)
    | exact respOK_200 _

/-- Every outcome of Download satisfies the invariant. -/
theorem download_exceptOK (env : Env) (event : Event) :
    ExceptOK (handle_download env event).1 := by
  unfold handle_download
  dsimp only
  repeat' split
  all_goals first
    | trivial
    | exact respOK_err 400 "objectKey is required" (by decide)
    | exact respOK_err 404 "File not found" (by decide)
    | exact respOK_err 500 "Failed to generate download URL" (by decide)
    | exact respOK_307 _ _

/-- Every outcome of the dispatched operation satisfies the invariant. -/
theorem dispatch_exceptOK (env : Env) (event : Event) :
    ExceptOK (dispatch env event).1 := by
  unfold dispatch
  dsimp only
  split
  · exact upload_exceptOK env event
  · split
    · exact download_exceptOK env event
    · exact respOK_err 404 "Not found" (by decide)

/-- C9: every response the handler produces carries
`Content-Type: application/json`, every error response's body is
exactly `\x7b"error": <string>\x7d`, and the 307 additionally carries
a `Location` header. -/
theorem c9_response_invariants (env : Env) (event : Event) :
    RespOK (lambda_handler env event).1 := by
  have h := dispatch_exceptOK env event
  unfold lambda_handler
  cases hd : dispatch env event with
  | mk res log =>
    rw [hd] at h
    cases res with
    | ok r => exact h
    | error e => exact respOK_err 500 (Exn.str e) (by decide)

/-- Witness for C9: the 404 route's response has the JSON content type
and an `\x7b"error": <string>\x7d` body. -/
theorem c9_response_invariants_witness :
    ("Content-Type", "application/json") ∈ (lambda_handler env0 evOther).1.headers ∧
    (∃ msg, (lambda_handler env0 evOther).1.body = errorBody msg) :=
  ⟨(c9_response_invariants env0 evOther).1,
   (c9_response_invariants env0 evOther).2.1 (by decide)⟩

end FileGateway
